import Mathlib

/-!
Verification development for the TensorHub Inception building blocks
(`tensorhub/layers/inception_v1.py` and `tensorhub/layers/inception_v2.py`).

The repository is a thin declarative wiring of framework tensor operators:
each block constructs convolution / pooling operators in a lazy `build` step
and, in `call`, applies them to the input and concatenates the branch
outputs along the channel axis.  We embed this wiring shallowly:

* a `Tensor` is a symbolic dataflow expression recording which operator
  instances were applied in which order (the framework's numeric kernels are
  out of scope for the repository, so two equal expressions denote equal
  runtime tensors for fixed weights);
* every operator instance carries its configuration (filter count, kernel
  size, strides, padding, activation) plus a distinct instance identifier
  `uid`, so that two operators with the same configuration but independent
  weights stay distinguishable;
* `tensorShape` computes the static (batch, height, width, channels) shape
  of an expression from the framework's output-size rules;
* the framework's functional concatenation primitive is modelled with its
  required list-of-inputs argument, which the `build` methods of four of
  the five classes omit (`keras.layers.concatenate(axis=-1)`);
* the lazy build-on-first-call lifecycle is modelled by `LazyBlock`.
-/

/-- An activation value. The source imports `relu` from
`tensorhub.utilities.activations` and passes it through to every
convolution unchanged; the embedding keeps activations abstract as tagged
values. -/
inductive Act where
  | relu
  | custom (tag : Nat)
deriving DecidableEq

/-- Padding mode of a convolution / pooling operator. The source always
passes the string `"same"`. -/
inductive Padding where
  | same
  | valid
deriving DecidableEq

/-- One `keras.layers.Conv2D` instance: configuration fixed at construction
plus a distinct instance identifier `uid` standing for its independent
weight variables. -/
structure ConvOp where
  uid : Nat
  filters : Nat
  kh : Nat
  kw : Nat
  strides : Nat
  padding : Padding
  activation : Act
deriving DecidableEq

/-- One `keras.layers.MaxPool2D` instance. -/
structure PoolOp where
  uid : Nat
  ph : Nat
  pw : Nat
  strides : Nat
  padding : Padding
deriving DecidableEq

/-- A rank-4 tensor shape in the source's (batch, height, width, channels)
layout. -/
structure Shape where
  n : Nat
  h : Nat
  w : Nat
  c : Nat
deriving DecidableEq

/-- Symbolic tensor expression: a raw input of known shape, or the result of
applying a convolution, a pooling operator, or the channel concatenation of
a list of tensors along an axis. -/
inductive Tensor where
  | input : Shape → Tensor
  | conv : ConvOp → Tensor → Tensor
  | pool : PoolOp → Tensor → Tensor
  | concat : List Tensor → Int → Tensor

/-- Error raised by the external framework. -/
inductive KerasError where
  | typeErrorMissingInputs
deriving DecidableEq

/-- Modelled from the spec: the framework's functional concatenation
primitive (`keras.layers.concatenate`) takes an ordered list of input
tensors and a concatenation axis; the list is a required argument, so an
invocation that supplies only the axis raises a framework error. -/
def kerasConcatenateCall (inputs : Option (List Tensor)) (axis : Int) :
    Except KerasError Tensor :=
  match inputs with
  | none => .error .typeErrorMissingInputs
  | some ts => .ok (Tensor.concat ts axis)

/-- Modelled from the spec: the framework's output-size rule for one spatial
dimension. With `"same"` padding the output extent is `⌈n / strides⌉`
(independent of the kernel size, so stride 1 preserves the extent); with
`"valid"` padding it is `⌈(n - k + 1) / strides⌉`. -/
def convOutDim (n k strides : Nat) (p : Padding) : Nat :=
  match p with
  | .same => (n + strides - 1) / strides
  | .valid => (n + strides - k) / strides

/-- Output shape of a convolution: spatial dims by the padding rule, channel
count replaced by the filter count. -/
def ConvOp.outShape (op : ConvOp) (s : Shape) : Shape :=
  ⟨s.n, convOutDim s.h op.kh op.strides op.padding,
    convOutDim s.w op.kw op.strides op.padding, op.filters⟩

/-- Output shape of a max-pool: spatial dims by the padding rule, channel
count preserved. -/
def PoolOp.outShape (op : PoolOp) (s : Shape) : Shape :=
  ⟨s.n, convOutDim s.h op.ph op.strides op.padding,
    convOutDim s.w op.pw op.strides op.padding, s.c⟩

/-- Concatenation of two shapes along the channel axis: all other axes must
match, channel counts add. -/
def concat2 (s t : Shape) : Option Shape :=
  if s.n = t.n ∧ s.h = t.h ∧ s.w = t.w then
    some ⟨s.n, s.h, s.w, s.c + t.c⟩
  else none

/-- Shape of a channel concatenation of a list of operand shapes (left
fold, matching the operand order). -/
def combineShapes : List (Option Shape) → Option Shape
  | [] => none
  | o :: os =>
      os.foldl (fun acc p => do
        let a ← acc
        let s ← p
        concat2 a s) o

mutual

/-- Static shape of a symbolic tensor, by the framework's shape rules.
Concatenation is modelled for the channel axis `-1`, the only axis the
source ever passes. -/
def tensorShape : Tensor → Option Shape
  | .input s => some s
  | .conv op t => (tensorShape t).map op.outShape
  | .pool op t => (tensorShape t).map op.outShape
  | .concat ts ax =>
      if ax = -1 then combineShapes (tensorShapeList ts) else none

/-- Shapes of a list of symbolic tensors. -/
def tensorShapeList : List Tensor → List (Option Shape)
  | [] => []
  | t :: ts => tensorShape t :: tensorShapeList ts

end

mutual

/-- All convolution instances applied anywhere in a symbolic tensor, in
application order (innermost first). -/
def convsIn : Tensor → List ConvOp
  | .input _ => []
  | .conv op t => convsIn t ++ [op]
  | .pool _ t => convsIn t
  | .concat ts _ => convsInList ts

/-- Convolution instances applied in a list of symbolic tensors. -/
def convsInList : List Tensor → List ConvOp
  | [] => []
  | t :: ts => convsIn t ++ convsInList ts

end

namespace InceptionV1

/-! ### `tensorhub/layers/inception_v1.py` -/

/-- Constructor state of `inception_v1.BasicLayer.__init__`: filter count
fixed at 64, stride 1, `"same"` padding, caller-supplied activation. -/
structure BasicLayerCfg where
  num_filters : Nat
  act : Act
  strides : Nat
  padding : Padding
deriving DecidableEq

/-- `BasicLayer(activation)`: the constructor sets `num_filters = 64`,
`strides = 1`, `padding = "same"`. -/
def BasicLayer.mkLayer (activation : Act) : BasicLayerCfg :=
  ⟨64, activation, 1, .same⟩

/-- The sub-operators assigned by `BasicLayer.build`. -/
structure BasicLayerOps where
  conv_block_a : ConvOp
  conv_block_b : ConvOp
  conv_block_c : ConvOp
  maxpool_block : PoolOp
deriving DecidableEq

/-- The operator instances `BasicLayer.build` constructs: 1×1, 3×3 and 5×5
convolutions (filter count, stride, padding and activation from the
constructor state) and a 3×3 max-pool. -/
def BasicLayer.buildOps (cfg : BasicLayerCfg) : BasicLayerOps :=
  { conv_block_a := ⟨0, cfg.num_filters, 1, 1, cfg.strides, cfg.padding, cfg.act⟩
    conv_block_b := ⟨1, cfg.num_filters, 3, 3, cfg.strides, cfg.padding, cfg.act⟩
    conv_block_c := ⟨2, cfg.num_filters, 5, 5, cfg.strides, cfg.padding, cfg.act⟩
    maxpool_block := ⟨3, 3, 3, cfg.strides, cfg.padding⟩ }

/-- `BasicLayer.build` verbatim: it constructs the four operators and then
evaluates `keras.layers.concatenate(axis=-1)` — the concatenation primitive
with no input list. -/
def BasicLayer.build (cfg : BasicLayerCfg) : Except KerasError BasicLayerOps := do
  let ops := BasicLayer.buildOps cfg
  let _ ← kerasConcatenateCall none (-1)
  return ops

/-- `BasicLayer.call` verbatim: `out_a = conv_block_a(x)`,
`out_b = conv_block_b(x)`, `out_c = conv_block_a(x)` (the source applies
`conv_block_a` again on the third branch), `out_d = maxpool_block(x)`,
concatenated along axis `-1`. -/
def BasicLayer.call (ops : BasicLayerOps) (x : Tensor) : Tensor :=
  let out_a := Tensor.conv ops.conv_block_a x
  let out_b := Tensor.conv ops.conv_block_b x
  let out_c := Tensor.conv ops.conv_block_a x
  let out_d := Tensor.pool ops.maxpool_block x
  Tensor.concat [out_a, out_b, out_c, out_d] (-1)

/-- Constructor state of `inception_v1.ReductionLayer.__init__` (same fields
as the basic layer). -/
structure ReductionLayerCfg where
  num_filters : Nat
  act : Act
  strides : Nat
  padding : Padding
deriving DecidableEq

/-- `ReductionLayer(activation)`: `num_filters = 64`, `strides = 1`,
`padding = "same"`. -/
def ReductionLayer.mkLayer (activation : Act) : ReductionLayerCfg :=
  ⟨64, activation, 1, .same⟩

/-- The sub-operators assigned by `ReductionLayer.build`. -/
structure ReductionLayerOps where
  conv_1a : ConvOp
  conv_1b : ConvOp
  conv_1c : ConvOp
  conv_1d : ConvOp
  conv_3 : ConvOp
  conv_5 : ConvOp
  maxpool_block : PoolOp
deriving DecidableEq

/-- The operator instances `ReductionLayer.build` constructs: four 1×1
convolutions (`conv_1a` with strides `self.strides * self.strides = 1`),
one 3×3, one 5×5, and a 3×3 max-pool. -/
def ReductionLayer.buildOps (cfg : ReductionLayerCfg) : ReductionLayerOps :=
  { conv_1a := ⟨0, cfg.num_filters, 1, 1, cfg.strides * cfg.strides, cfg.padding, cfg.act⟩
    conv_1b := ⟨1, cfg.num_filters, 1, 1, cfg.strides, cfg.padding, cfg.act⟩
    conv_1c := ⟨2, cfg.num_filters, 1, 1, cfg.strides, cfg.padding, cfg.act⟩
    conv_1d := ⟨3, cfg.num_filters, 1, 1, cfg.strides, cfg.padding, cfg.act⟩
    conv_3 := ⟨4, cfg.num_filters, 3, 3, cfg.strides, cfg.padding, cfg.act⟩
    conv_5 := ⟨5, cfg.num_filters, 5, 5, cfg.strides, cfg.padding, cfg.act⟩
    maxpool_block := ⟨6, 3, 3, cfg.strides, cfg.padding⟩ }

/-- `ReductionLayer.build` verbatim: constructs the seven operators, then
evaluates `keras.layers.concatenate(axis=-1)` with no input list. -/
def ReductionLayer.build (cfg : ReductionLayerCfg) :
    Except KerasError ReductionLayerOps := do
  let ops := ReductionLayer.buildOps cfg
  let _ ← kerasConcatenateCall none (-1)
  return ops

/-- `ReductionLayer.call` verbatim: branch A `conv_1a(x)`; branch B
`conv_3(conv_1b(x))`; branch C `conv_5(conv_1c(x))`; branch D
`conv_1d(maxpool_block(x))`; concatenated along axis `-1`. -/
def ReductionLayer.call (ops : ReductionLayerOps) (x : Tensor) : Tensor :=
  let out_a := Tensor.conv ops.conv_1a x
  let out_b := Tensor.conv ops.conv_3 (Tensor.conv ops.conv_1b x)
  let out_c := Tensor.conv ops.conv_5 (Tensor.conv ops.conv_1c x)
  let out_d := Tensor.conv ops.conv_1d (Tensor.pool ops.maxpool_block x)
  Tensor.concat [out_a, out_b, out_c, out_d] (-1)

end InceptionV1

namespace InceptionV2

/-! ### `tensorhub/layers/inception_v2.py` -/

/-- Constructor state shared by the three V2 layer classes: caller-supplied
filter count (default 28) and activation, stride 1, `"same"` padding. -/
structure LayerCfg where
  num_filters : Nat
  act : Act
  strides : Nat
  padding : Padding
deriving DecidableEq

/-- `BasicLayer(num_filters, activation)` / `DeepLayer(...)` /
`WideLayer(...)`: each constructor sets `strides = 1`,
`padding = "same"`. -/
def mkLayer (num_filters : Nat) (activation : Act) : LayerCfg :=
  ⟨num_filters, activation, 1, .same⟩

/-- The sub-operators assigned by `inception_v2.BasicLayer.build`. -/
structure BasicLayerOps where
  conv_1a : ConvOp
  conv_1b : ConvOp
  conv_3b : ConvOp
  conv_1c : ConvOp
  conv_3c1 : ConvOp
  conv_3c2 : ConvOp
  conv_1d : ConvOp
  maxpool_layer : PoolOp
deriving DecidableEq

/-- The operator instances `inception_v2.BasicLayer.build` constructs. -/
def BasicLayer.buildOps (cfg : LayerCfg) : BasicLayerOps :=
  { conv_1a := ⟨0, cfg.num_filters, 1, 1, cfg.strides * cfg.strides, cfg.padding, cfg.act⟩
    conv_1b := ⟨1, cfg.num_filters, 1, 1, cfg.strides, cfg.padding, cfg.act⟩
    conv_3b := ⟨2, cfg.num_filters, 3, 3, cfg.strides, cfg.padding, cfg.act⟩
    conv_1c := ⟨3, cfg.num_filters, 1, 1, cfg.strides, cfg.padding, cfg.act⟩
    conv_3c1 := ⟨4, cfg.num_filters, 3, 3, cfg.strides, cfg.padding, cfg.act⟩
    conv_3c2 := ⟨5, cfg.num_filters, 3, 3, cfg.strides, cfg.padding, cfg.act⟩
    conv_1d := ⟨6, cfg.num_filters, 1, 1, cfg.strides, cfg.padding, cfg.act⟩
    maxpool_layer := ⟨7, 3, 3, cfg.strides, cfg.padding⟩ }

/-- `inception_v2.BasicLayer.build` verbatim: constructs the operators and
then evaluates `keras.layers.concatenate(axis=-1)` with no input list. -/
def BasicLayer.build (cfg : LayerCfg) : Except KerasError BasicLayerOps := do
  let ops := BasicLayer.buildOps cfg
  let _ ← kerasConcatenateCall none (-1)
  return ops

/-- `inception_v2.BasicLayer.call` verbatim: A = `conv_1a(x)`;
B = `conv_3b(conv_1b(x))`; C = `conv_3c2(conv_3c1(conv_1c(x)))`;
D = `conv_1d(maxpool_layer(x))`; concatenated along axis `-1`. -/
def BasicLayer.call (ops : BasicLayerOps) (x : Tensor) : Tensor :=
  let out_a := Tensor.conv ops.conv_1a x
  let out_b := Tensor.conv ops.conv_3b (Tensor.conv ops.conv_1b x)
  let out_c := Tensor.conv ops.conv_3c2 (Tensor.conv ops.conv_3c1 (Tensor.conv ops.conv_1c x))
  let out_d := Tensor.conv ops.conv_1d (Tensor.pool ops.maxpool_layer x)
  Tensor.concat [out_a, out_b, out_c, out_d] (-1)

/-- The sub-operators assigned by `DeepLayer.build`. -/
structure DeepLayerOps where
  conv_1a : ConvOp
  conv_1b : ConvOp
  conv_1_3b : ConvOp
  conv_3_1b : ConvOp
  conv_1c : ConvOp
  conv_1_3c1 : ConvOp
  conv_3_1c1 : ConvOp
  conv_1_3c2 : ConvOp
  conv_3_1c2 : ConvOp
  conv_1d : ConvOp
  maxpool_layer : PoolOp
deriving DecidableEq

/-- The operator instances `DeepLayer.build` constructs: 1×1 convolutions,
factorized 1×3 / 3×1 convolutions, and a 3×3 max-pool. -/
def DeepLayer.buildOps (cfg : LayerCfg) : DeepLayerOps :=
  { conv_1a := ⟨0, cfg.num_filters, 1, 1, cfg.strides * cfg.strides, cfg.padding, cfg.act⟩
    conv_1b := ⟨1, cfg.num_filters, 1, 1, cfg.strides, cfg.padding, cfg.act⟩
    conv_1_3b := ⟨2, cfg.num_filters, 1, 3, cfg.strides, cfg.padding, cfg.act⟩
    conv_3_1b := ⟨3, cfg.num_filters, 3, 1, cfg.strides, cfg.padding, cfg.act⟩
    conv_1c := ⟨4, cfg.num_filters, 1, 1, cfg.strides, cfg.padding, cfg.act⟩
    conv_1_3c1 := ⟨5, cfg.num_filters, 1, 3, cfg.strides, cfg.padding, cfg.act⟩
    conv_3_1c1 := ⟨6, cfg.num_filters, 3, 1, cfg.strides, cfg.padding, cfg.act⟩
    conv_1_3c2 := ⟨7, cfg.num_filters, 1, 3, cfg.strides, cfg.padding, cfg.act⟩
    conv_3_1c2 := ⟨8, cfg.num_filters, 3, 1, cfg.strides, cfg.padding, cfg.act⟩
    conv_1d := ⟨9, cfg.num_filters, 1, 1, cfg.strides, cfg.padding, cfg.act⟩
    maxpool_layer := ⟨10, 3, 3, cfg.strides, cfg.padding⟩ }

/-- `DeepLayer.build` verbatim: it only constructs operators — unlike the
other four classes it does not touch the concatenation primitive — so the
build step completes. -/
def DeepLayer.build (cfg : LayerCfg) : Except KerasError DeepLayerOps :=
  .ok (DeepLayer.buildOps cfg)

/-- `DeepLayer.call` verbatim: A = `conv_1a(x)`;
B = `conv_3_1b(conv_1_3b(conv_1b(x)))`;
C = `conv_3_1c2(conv_1_3c2(conv_3_1c1(conv_1_3c1(conv_1c(x)))))`;
D = `conv_1d(maxpool_layer(x))`; the four outputs are passed to
`keras.layers.concatenate([...], axis=-1)` (the only class that supplies
the input list to the primitive inside `call`). -/
def DeepLayer.call (ops : DeepLayerOps) (x : Tensor) : Except KerasError Tensor :=
  let out_a := Tensor.conv ops.conv_1a x
  let out_b := Tensor.conv ops.conv_3_1b (Tensor.conv ops.conv_1_3b (Tensor.conv ops.conv_1b x))
  let out_c := Tensor.conv ops.conv_3_1c2 (Tensor.conv ops.conv_1_3c2
    (Tensor.conv ops.conv_3_1c1 (Tensor.conv ops.conv_1_3c1 (Tensor.conv ops.conv_1c x))))
  let out_d := Tensor.conv ops.conv_1d (Tensor.pool ops.maxpool_layer x)
  kerasConcatenateCall (some [out_a, out_b, out_c, out_d]) (-1)

/-- The sub-operators assigned by `WideLayer.build`. -/
structure WideLayerOps where
  conv_1a : ConvOp
  conv_1b : ConvOp
  conv_1_3b : ConvOp
  conv_3_1b : ConvOp
  conv_1c : ConvOp
  conv_3c : ConvOp
  conv_1_3c : ConvOp
  conv_3_1c : ConvOp
  conv_1d : ConvOp
  maxpool_layer : PoolOp
deriving DecidableEq

/-- The operator instances `WideLayer.build` constructs. -/
def WideLayer.buildOps (cfg : LayerCfg) : WideLayerOps :=
  { conv_1a := ⟨0, cfg.num_filters, 1, 1, cfg.strides * cfg.strides, cfg.padding, cfg.act⟩
    conv_1b := ⟨1, cfg.num_filters, 1, 1, cfg.strides, cfg.padding, cfg.act⟩
    conv_1_3b := ⟨2, cfg.num_filters, 1, 3, cfg.strides, cfg.padding, cfg.act⟩
    conv_3_1b := ⟨3, cfg.num_filters, 3, 1, cfg.strides, cfg.padding, cfg.act⟩
    conv_1c := ⟨4, cfg.num_filters, 1, 1, cfg.strides, cfg.padding, cfg.act⟩
    conv_3c := ⟨5, cfg.num_filters, 3, 3, cfg.strides, cfg.padding, cfg.act⟩
    conv_1_3c := ⟨6, cfg.num_filters, 1, 3, cfg.strides, cfg.padding, cfg.act⟩
    conv_3_1c := ⟨7, cfg.num_filters, 3, 1, cfg.strides, cfg.padding, cfg.act⟩
    conv_1d := ⟨8, cfg.num_filters, 1, 1, cfg.strides, cfg.padding, cfg.act⟩
    maxpool_layer := ⟨9, 3, 3, cfg.strides, cfg.padding⟩ }

/-- `WideLayer.build` verbatim: constructs the operators and then evaluates
`keras.layers.concatenate(axis=-1)` with no input list. -/
def WideLayer.build (cfg : LayerCfg) : Except KerasError WideLayerOps := do
  let ops := WideLayer.buildOps cfg
  let _ ← kerasConcatenateCall none (-1)
  return ops

/-- `WideLayer.call` verbatim: A = `conv_1a(x)`; the B intermediate
`conv_1b(x)` feeds the two siblings B1 = `conv_1_3b(·)` and
B2 = `conv_3_1b(·)`; the C intermediate `conv_3c(conv_1c(x))` feeds the
siblings C1 = `conv_1_3c(·)` and C2 = `conv_3_1c(·)`;
D = `conv_1d(maxpool_layer(x))`. The source concatenates
`[out_a, out_b1, out_b2, out_c1, out_c1, out_d]` — `out_c1` twice,
`out_c2` never. -/
def WideLayer.call (ops : WideLayerOps) (x : Tensor) : Tensor :=
  let out_a := Tensor.conv ops.conv_1a x
  let out_b_inter := Tensor.conv ops.conv_1b x
  let out_b1 := Tensor.conv ops.conv_1_3b out_b_inter
  let out_b2 := Tensor.conv ops.conv_3_1b out_b_inter
  let out_c_inter := Tensor.conv ops.conv_3c (Tensor.conv ops.conv_1c x)
  let out_c1 := Tensor.conv ops.conv_1_3c out_c_inter
  let out_d := Tensor.conv ops.conv_1d (Tensor.pool ops.maxpool_layer x)
  Tensor.concat [out_a, out_b1, out_b2, out_c1, out_c1, out_d] (-1)

end InceptionV2

/-- A lazily built layer: constructor state `cfg` plus the sub-operators,
present only after the first forward invocation. Modelled from the spec:
the framework's build-on-first-call lifecycle (construct → uninitialized;
the first forward call triggers the build step exactly once; later calls
reuse the cached operators). -/
structure LazyBlock (Cfg Ops : Type) where
  cfg : Cfg
  built : Option Ops
deriving DecidableEq

/-- One forward invocation of a lazily built layer with build step `bld`
and forward body `body`: if the operators are not yet built, build them
from the constructor state and cache them; then run the forward body. -/
def LazyBlock.forward {Cfg Ops R : Type} (bld : Cfg → Ops)
    (body : Ops → Tensor → R) (b : LazyBlock Cfg Ops) (x : Tensor) :
    LazyBlock Cfg Ops × R :=
  match b.built with
  | some ops => (b, body ops x)
  | none =>
      let ops := bld b.cfg
      ({ cfg := b.cfg, built := some ops }, body ops x)

/-- One forward invocation through the framework's build-on-first-call
protocol with its error path. Modelled from the spec: when the operators
are not yet built, the build step runs first; the built flag is latched
only after the build step returns, so if the build step raises, the error
propagates and nothing is cached — the next invocation runs the build step
again. The middle component counts whether the build step ran during this
invocation. -/
def LazyBlock.forwardE {Cfg Ops R : Type} (bld : Cfg → Except KerasError Ops)
    (body : Ops → Tensor → R) (b : LazyBlock Cfg Ops) (x : Tensor) :
    LazyBlock Cfg Ops × Nat × Except KerasError R :=
  match b.built with
  | some ops => (b, 0, .ok (body ops x))
  | none =>
      match bld b.cfg with
      | .error e => (b, 1, .error e)
      | .ok ops => ({ cfg := b.cfg, built := some ops }, 1, .ok (body ops x))

/-- Repeated forward invocations through the fallible protocol, returning
the final layer state and the total number of times the build step ran. -/
def LazyBlock.iterateE {Cfg Ops R : Type} (bld : Cfg → Except KerasError Ops)
    (body : Ops → Tensor → R) : LazyBlock Cfg Ops → List Tensor → LazyBlock Cfg Ops × Nat
  | b, [] => (b, 0)
  | b, x :: xs =>
      let step := LazyBlock.forwardE bld body b x
      let rest := LazyBlock.iterateE bld body step.1 xs
      (rest.1, step.2.1 + rest.2)

/-- Helper: a layer whose operators are already cached never runs the build
step again and is left unchanged by any number of forward invocations. -/
theorem LazyBlock.iterateE_of_built {Cfg Ops R : Type} (bld : Cfg → Except KerasError Ops)
    (body : Ops → Tensor → R) (cfg : Cfg) (ops : Ops) (xs : List Tensor) :
    LazyBlock.iterateE bld body ⟨cfg, some ops⟩ xs = (⟨cfg, some ops⟩, 0) := by
  induction xs with
  | nil => rfl
  | cons x xs ih => simpa [LazyBlock.iterateE, LazyBlock.forwardE] using ih

/-- Helper: a layer whose build step raises never latches the built flag,
so every forward invocation runs the build step again: after `xs.length`
attempts the build step has run `xs.length` times and nothing is cached. -/
theorem LazyBlock.iterateE_of_failing_build {Cfg Ops R : Type}
    (bld : Cfg → Except KerasError Ops) (body : Ops → Tensor → R) (cfg : Cfg)
    (e : KerasError) (hb : bld cfg = .error e) (xs : List Tensor) :
    LazyBlock.iterateE bld body ⟨cfg, none⟩ xs = (⟨cfg, none⟩, xs.length) := by
  induction xs with
  | nil => rfl
  | cons x xs ih =>
      simp [LazyBlock.iterateE, LazyBlock.forwardE, hb, ih]
      omega

/-- Claim C10: in `inception_v1.BasicLayer.call` the third concatenated
segment applies `conv_block_a` (the 1×1 operator) a second time instead of
the built 5×5 operator `conv_block_c`: the first and third segments of the
concatenated output are the identical expression `conv_block_a(x)`, and on
a raw input the 5×5 convolution constructed in `build` is never applied. -/
theorem v1_basic_third_segment_equals_first :
    (∀ (ops : InceptionV1.BasicLayerOps) (x : Tensor),
      InceptionV1.BasicLayer.call ops x =
        Tensor.concat
          [Tensor.conv ops.conv_block_a x, Tensor.conv ops.conv_block_b x,
            Tensor.conv ops.conv_block_a x, Tensor.pool ops.maxpool_block x] (-1))
    ∧ (∀ (act : Act) (s : Shape),
      (InceptionV1.BasicLayer.buildOps (InceptionV1.BasicLayer.mkLayer act)).conv_block_c ∉
        convsIn (InceptionV1.BasicLayer.call
          (InceptionV1.BasicLayer.buildOps (InceptionV1.BasicLayer.mkLayer act))
          (Tensor.input s))) := by
  refine ⟨fun ops x => rfl, fun act s => ?_⟩
  simp [InceptionV1.BasicLayer.call, InceptionV1.BasicLayer.buildOps,
    InceptionV1.BasicLayer.mkLayer, convsIn, convsInList]

/-- Claim C1: the spec requires the V1 basic block forward pass to apply all
four built operators, the 5×5 convolution included, in order
[1×1, 3×3, 5×5, pool]; the code instead applies `conv_block_a` again in the
third position and never applies the built 5×5 `conv_block_c`. Evaluated
here at the concrete input of shape (1, 8, 8, 3). -/
theorem v1_basic_forward_drops_conv5_at_concrete_input :
    InceptionV1.BasicLayer.call
        (InceptionV1.BasicLayer.buildOps (InceptionV1.BasicLayer.mkLayer Act.relu))
        (Tensor.input ⟨1, 8, 8, 3⟩) =
      Tensor.concat
        [Tensor.conv ⟨0, 64, 1, 1, 1, .same, .relu⟩ (Tensor.input ⟨1, 8, 8, 3⟩),
          Tensor.conv ⟨1, 64, 3, 3, 1, .same, .relu⟩ (Tensor.input ⟨1, 8, 8, 3⟩),
          Tensor.conv ⟨0, 64, 1, 1, 1, .same, .relu⟩ (Tensor.input ⟨1, 8, 8, 3⟩),
          Tensor.pool ⟨3, 3, 3, 1, .same⟩ (Tensor.input ⟨1, 8, 8, 3⟩)] (-1)
    ∧ (InceptionV1.BasicLayer.buildOps (InceptionV1.BasicLayer.mkLayer Act.relu)).conv_block_c ∉
        convsIn (InceptionV1.BasicLayer.call
          (InceptionV1.BasicLayer.buildOps (InceptionV1.BasicLayer.mkLayer Act.relu))
          (Tensor.input ⟨1, 8, 8, 3⟩))
    ∧ (InceptionV1.BasicLayer.buildOps (InceptionV1.BasicLayer.mkLayer Act.relu)).conv_block_c.kh = 5
    ∧ (InceptionV1.BasicLayer.buildOps (InceptionV1.BasicLayer.mkLayer Act.relu)).conv_block_c.kw = 5 := by
  refine ⟨rfl, ?_, rfl, rfl⟩
  decide

/-- Claim C2 (counterexample): on the claimed concrete scenario — default
activation, input of shape (1, 32, 32, 3) — the V1 basic block's output
shape is not (1, 32, 32, 256). -/
theorem v1_basic_concrete_shape_not_256 :
    tensorShape (InceptionV1.BasicLayer.call
      (InceptionV1.BasicLayer.buildOps (InceptionV1.BasicLayer.mkLayer Act.relu))
      (Tensor.input ⟨1, 32, 32, 3⟩)) ≠ some ⟨1, 32, 32, 256⟩ := by
  decide

/-- Claim C2 (amended): the V1 basic block's max-pool branch carries no
convolution, so it preserves the input channel count; for an input of shape
(batch, H, W, C) with C ≥ 1 the output has 64 + 64 + 64 + C = 192 + C
channels, which equals 256 only when C = 64. -/
theorem v1_basic_output_channels_are_192_plus_c (act : Act) (b h w c : Nat)
    (hc : 1 ≤ c) :
    tensorShape (InceptionV1.BasicLayer.call
      (InceptionV1.BasicLayer.buildOps (InceptionV1.BasicLayer.mkLayer act))
      (Tensor.input ⟨b, h, w, c⟩)) = some ⟨b, h, w, 192 + c⟩ := by
  simp [InceptionV1.BasicLayer.call, InceptionV1.BasicLayer.buildOps,
    InceptionV1.BasicLayer.mkLayer, tensorShape, tensorShapeList, combineShapes,
    concat2, ConvOp.outShape, PoolOp.outShape, convOutDim]

/-- Witness for the amended claim C2: at the claimed concrete scenario the
output shape is (1, 32, 32, 195). -/
theorem v1_basic_output_channels_witness :
    tensorShape (InceptionV1.BasicLayer.call
      (InceptionV1.BasicLayer.buildOps (InceptionV1.BasicLayer.mkLayer Act.relu))
      (Tensor.input ⟨1, 32, 32, 3⟩)) = some ⟨1, 32, 32, 195⟩ :=
  v1_basic_output_channels_are_192_plus_c Act.relu 1 32 32 3 (by decide)

/-- Claim C3: `WideLayer.call` concatenates exactly the six branch outputs
[A, B1, B2, C1, C1, D] — the C1 expression (1×1 reduce, then 3×3, then 1×3)
appears twice, the sibling `conv_3_1c` is never applied on a raw input —
and with the default `num_filters = 28` the output has 168 channels. -/
theorem v2_wide_concat_duplicates_c1_and_has_168_channels :
    (∀ (ops : InceptionV2.WideLayerOps) (x : Tensor),
      InceptionV2.WideLayer.call ops x =
        Tensor.concat
          [Tensor.conv ops.conv_1a x,
            Tensor.conv ops.conv_1_3b (Tensor.conv ops.conv_1b x),
            Tensor.conv ops.conv_3_1b (Tensor.conv ops.conv_1b x),
            Tensor.conv ops.conv_1_3c (Tensor.conv ops.conv_3c (Tensor.conv ops.conv_1c x)),
            Tensor.conv ops.conv_1_3c (Tensor.conv ops.conv_3c (Tensor.conv ops.conv_1c x)),
            Tensor.conv ops.conv_1d (Tensor.pool ops.maxpool_layer x)] (-1))
    ∧ (∀ (n : Nat) (act : Act) (s : Shape),
      (InceptionV2.WideLayer.buildOps (InceptionV2.mkLayer n act)).conv_3_1c ∉
        convsIn (InceptionV2.WideLayer.call
          (InceptionV2.WideLayer.buildOps (InceptionV2.mkLayer n act)) (Tensor.input s)))
    ∧ (∀ (act : Act) (b h w c : Nat),
      tensorShape (InceptionV2.WideLayer.call
        (InceptionV2.WideLayer.buildOps (InceptionV2.mkLayer 28 act))
        (Tensor.input ⟨b, h, w, c⟩)) = some ⟨b, h, w, 168⟩) := by
  refine ⟨fun ops x => rfl, fun n act s => ?_, fun act b h w c => ?_⟩
  · simp [InceptionV2.WideLayer.call, InceptionV2.WideLayer.buildOps,
      InceptionV2.mkLayer, convsIn, convsInList]
  · simp [InceptionV2.WideLayer.call, InceptionV2.WideLayer.buildOps,
      InceptionV2.mkLayer, tensorShape, tensorShapeList, combineShapes,
      concat2, ConvOp.outShape, PoolOp.outShape, convOutDim]

/-- Claim C4: the `build` step of `inception_v1.BasicLayer`,
`inception_v1.ReductionLayer`, `inception_v2.BasicLayer` and
`inception_v2.WideLayer` invokes the functional concatenation primitive with
only an axis and no input list, so each of those builds raises a framework
error before any concatenation; only `DeepLayer` builds successfully, and
its forward pass — which passes the four branch outputs to the primitive —
completes. -/
theorem builds_fail_without_inputs_except_deep :
    (∀ act, InceptionV1.BasicLayer.build (InceptionV1.BasicLayer.mkLayer act) =
      .error .typeErrorMissingInputs)
    ∧ (∀ act, InceptionV1.ReductionLayer.build (InceptionV1.ReductionLayer.mkLayer act) =
      .error .typeErrorMissingInputs)
    ∧ (∀ n act, InceptionV2.BasicLayer.build (InceptionV2.mkLayer n act) =
      .error .typeErrorMissingInputs)
    ∧ (∀ n act, InceptionV2.WideLayer.build (InceptionV2.mkLayer n act) =
      .error .typeErrorMissingInputs)
    ∧ (∀ n act, InceptionV2.DeepLayer.build (InceptionV2.mkLayer n act) =
      .ok (InceptionV2.DeepLayer.buildOps (InceptionV2.mkLayer n act)))
    ∧ (∀ (ops : InceptionV2.DeepLayerOps) (x : Tensor),
      ∃ t, InceptionV2.DeepLayer.call ops x = .ok t) :=
  ⟨fun _ => rfl, fun _ => rfl, fun _ _ => rfl, fun _ _ => rfl, fun _ _ => rfl,
    fun ops x => ⟨_, rfl⟩⟩

/-- Claim C5: `ReductionLayer.call` computes branch A as the 1×1 `conv_1a`
on the input, branch B as `conv_1b` then the 3×3 `conv_3`, branch C as
`conv_1c` then the 5×5 `conv_5`, branch D as the 3×3 max-pool then
`conv_1d`, concatenates [A, B, C, D] along the channel axis, and yields
64 × 4 = 256 output channels. -/
theorem v1_reduction_wiring_and_256_channels :
    (∀ (ops : InceptionV1.ReductionLayerOps) (x : Tensor),
      InceptionV1.ReductionLayer.call ops x =
        Tensor.concat
          [Tensor.conv ops.conv_1a x,
            Tensor.conv ops.conv_3 (Tensor.conv ops.conv_1b x),
            Tensor.conv ops.conv_5 (Tensor.conv ops.conv_1c x),
            Tensor.conv ops.conv_1d (Tensor.pool ops.maxpool_block x)] (-1))
    ∧ (∀ act,
      let ops := InceptionV1.ReductionLayer.buildOps (InceptionV1.ReductionLayer.mkLayer act)
      (ops.conv_1a.kh, ops.conv_1a.kw) = (1, 1) ∧ (ops.conv_1b.kh, ops.conv_1b.kw) = (1, 1)
        ∧ (ops.conv_1c.kh, ops.conv_1c.kw) = (1, 1) ∧ (ops.conv_1d.kh, ops.conv_1d.kw) = (1, 1)
        ∧ (ops.conv_3.kh, ops.conv_3.kw) = (3, 3) ∧ (ops.conv_5.kh, ops.conv_5.kw) = (5, 5)
        ∧ (ops.maxpool_block.ph, ops.maxpool_block.pw) = (3, 3)
        ∧ ops.conv_1a.filters = 64 ∧ ops.conv_3.filters = 64 ∧ ops.conv_5.filters = 64
        ∧ ops.conv_1d.filters = 64)
    ∧ (∀ (act : Act) (b h w c : Nat),
      tensorShape (InceptionV1.ReductionLayer.call
        (InceptionV1.ReductionLayer.buildOps (InceptionV1.ReductionLayer.mkLayer act))
        (Tensor.input ⟨b, h, w, c⟩)) = some ⟨b, h, w, 256⟩) := by
  refine ⟨fun ops x => rfl,
    fun act => ⟨rfl, rfl, rfl, rfl, rfl, rfl, rfl, rfl, rfl, rfl, rfl⟩,
    fun act b h w c => ?_⟩
  simp [InceptionV1.ReductionLayer.call, InceptionV1.ReductionLayer.buildOps,
    InceptionV1.ReductionLayer.mkLayer, tensorShape, tensorShapeList, combineShapes,
    concat2, ConvOp.outShape, PoolOp.outShape, convOutDim]

/-- Claim C6: `DeepLayer.call` computes branch A as the direct 1×1
`conv_1a`, branch B as the 1×1 reduce `conv_1b` followed by the 1×3 then
3×1 pair, branch C as the 1×1 reduce `conv_1c` followed by two stacked
factorized pairs (1×3 then 3×1, twice), branch D as the 3×3 max-pool
followed by `conv_1d`, concatenates [A, B, C, D] along the channel axis,
and with the default `num_filters = 28` yields 112 output channels. -/
theorem v2_deep_wiring_and_112_channels :
    (∀ (ops : InceptionV2.DeepLayerOps) (x : Tensor),
      InceptionV2.DeepLayer.call ops x =
        .ok (Tensor.concat
          [Tensor.conv ops.conv_1a x,
            Tensor.conv ops.conv_3_1b (Tensor.conv ops.conv_1_3b (Tensor.conv ops.conv_1b x)),
            Tensor.conv ops.conv_3_1c2 (Tensor.conv ops.conv_1_3c2
              (Tensor.conv ops.conv_3_1c1 (Tensor.conv ops.conv_1_3c1
                (Tensor.conv ops.conv_1c x)))),
            Tensor.conv ops.conv_1d (Tensor.pool ops.maxpool_layer x)] (-1)))
    ∧ (∀ n act,
      let ops := InceptionV2.DeepLayer.buildOps (InceptionV2.mkLayer n act)
      (ops.conv_1a.kh, ops.conv_1a.kw) = (1, 1)
        ∧ (ops.conv_1_3b.kh, ops.conv_1_3b.kw) = (1, 3)
        ∧ (ops.conv_3_1b.kh, ops.conv_3_1b.kw) = (3, 1)
        ∧ (ops.conv_1_3c1.kh, ops.conv_1_3c1.kw) = (1, 3)
        ∧ (ops.conv_3_1c1.kh, ops.conv_3_1c1.kw) = (3, 1)
        ∧ (ops.conv_1_3c2.kh, ops.conv_1_3c2.kw) = (1, 3)
        ∧ (ops.conv_3_1c2.kh, ops.conv_3_1c2.kw) = (3, 1)
        ∧ (ops.conv_1d.kh, ops.conv_1d.kw) = (1, 1)
        ∧ (ops.maxpool_layer.ph, ops.maxpool_layer.pw) = (3, 3))
    ∧ (∀ (act : Act) (b h w c : Nat),
      Except.map tensorShape (InceptionV2.DeepLayer.call
        (InceptionV2.DeepLayer.buildOps (InceptionV2.mkLayer 28 act))
        (Tensor.input ⟨b, h, w, c⟩)) = .ok (some ⟨b, h, w, 112⟩)) := by
  refine ⟨fun ops x => rfl,
    fun n act => ⟨rfl, rfl, rfl, rfl, rfl, rfl, rfl, rfl, rfl⟩,
    fun act b h w c => ?_⟩
  simp [InceptionV2.DeepLayer.call, InceptionV2.DeepLayer.buildOps,
    InceptionV2.mkLayer, kerasConcatenateCall, Except.map, tensorShape,
    tensorShapeList, combineShapes, concat2, ConvOp.outShape, PoolOp.outShape,
    convOutDim]

/-- Claim C7: every operator in every block uses stride 1 and `"same"`
padding, so each of the four block types maps an input of shape
(batch, H, W, C) with H, W at least the block's largest kernel extent
(5 for the V1 blocks, 3 for the V2 deep and wide blocks) to an output of
shape (batch, H, W, ΣF), where ΣF is the sum of the concatenated branch
outputs' channel counts (192 + C, 256, 4·n, 6·n respectively). -/
theorem all_blocks_preserve_spatial_dims :
    (∀ (act : Act) (b h w c : Nat), 5 ≤ h → 5 ≤ w →
      tensorShape (InceptionV1.BasicLayer.call
        (InceptionV1.BasicLayer.buildOps (InceptionV1.BasicLayer.mkLayer act))
        (Tensor.input ⟨b, h, w, c⟩)) = some ⟨b, h, w, 192 + c⟩)
    ∧ (∀ (act : Act) (b h w c : Nat), 5 ≤ h → 5 ≤ w →
      tensorShape (InceptionV1.ReductionLayer.call
        (InceptionV1.ReductionLayer.buildOps (InceptionV1.ReductionLayer.mkLayer act))
        (Tensor.input ⟨b, h, w, c⟩)) = some ⟨b, h, w, 256⟩)
    ∧ (∀ (n : Nat) (act : Act) (b h w c : Nat), 3 ≤ h → 3 ≤ w →
      Except.map tensorShape (InceptionV2.DeepLayer.call
        (InceptionV2.DeepLayer.buildOps (InceptionV2.mkLayer n act))
        (Tensor.input ⟨b, h, w, c⟩)) = .ok (some ⟨b, h, w, 4 * n⟩))
    ∧ (∀ (n : Nat) (act : Act) (b h w c : Nat), 3 ≤ h → 3 ≤ w →
      tensorShape (InceptionV2.WideLayer.call
        (InceptionV2.WideLayer.buildOps (InceptionV2.mkLayer n act))
        (Tensor.input ⟨b, h, w, c⟩)) = some ⟨b, h, w, 6 * n⟩) := by
  refine ⟨?_, ?_, ?_, ?_⟩ <;> intros <;>
    simp [InceptionV1.BasicLayer.call, InceptionV1.BasicLayer.buildOps,
      InceptionV1.BasicLayer.mkLayer, InceptionV1.ReductionLayer.call,
      InceptionV1.ReductionLayer.buildOps, InceptionV1.ReductionLayer.mkLayer,
      InceptionV2.DeepLayer.call, InceptionV2.DeepLayer.buildOps,
      InceptionV2.WideLayer.call, InceptionV2.WideLayer.buildOps,
      InceptionV2.mkLayer, kerasConcatenateCall, Except.map, tensorShape,
      tensorShapeList, combineShapes, concat2, ConvOp.outShape, PoolOp.outShape,
      convOutDim] <;> omega

/-- Witness for claim C7: each of the four block types evaluated at an input
of shape (1, 8, 8, 3) yields the predicted output shape. -/
theorem all_blocks_preserve_spatial_dims_witness :
    tensorShape (InceptionV1.BasicLayer.call
      (InceptionV1.BasicLayer.buildOps (InceptionV1.BasicLayer.mkLayer Act.relu))
      (Tensor.input ⟨1, 8, 8, 3⟩)) = some ⟨1, 8, 8, 195⟩
    ∧ tensorShape (InceptionV1.ReductionLayer.call
      (InceptionV1.ReductionLayer.buildOps (InceptionV1.ReductionLayer.mkLayer Act.relu))
      (Tensor.input ⟨1, 8, 8, 3⟩)) = some ⟨1, 8, 8, 256⟩
    ∧ Except.map tensorShape (InceptionV2.DeepLayer.call
      (InceptionV2.DeepLayer.buildOps (InceptionV2.mkLayer 28 Act.relu))
      (Tensor.input ⟨1, 8, 8, 3⟩)) = .ok (some ⟨1, 8, 8, 112⟩)
    ∧ tensorShape (InceptionV2.WideLayer.call
      (InceptionV2.WideLayer.buildOps (InceptionV2.mkLayer 28 Act.relu))
      (Tensor.input ⟨1, 8, 8, 3⟩)) = some ⟨1, 8, 8, 168⟩ :=
  ⟨all_blocks_preserve_spatial_dims.1 Act.relu 1 8 8 3 (by decide) (by decide),
    all_blocks_preserve_spatial_dims.2.1 Act.relu 1 8 8 3 (by decide) (by decide),
    all_blocks_preserve_spatial_dims.2.2.1 28 Act.relu 1 8 8 3 (by decide) (by decide),
    all_blocks_preserve_spatial_dims.2.2.2 28 Act.relu 1 8 8 3 (by decide) (by decide)⟩

/-- Claim C8: a forward invocation is a pure function of the layer's cached
operators and the input: running the forward pass a second time on the same
input, with the state left by the first invocation, returns the very same
state and output — generically for any lazily built layer, and in
particular for the V1 basic block and the V2 deep block. -/
theorem forward_pass_idempotent :
    (∀ (Cfg Ops R : Type) (bld : Cfg → Ops) (body : Ops → Tensor → R)
      (b : LazyBlock Cfg Ops) (x : Tensor),
      LazyBlock.forward bld body (LazyBlock.forward bld body b x).1 x =
        LazyBlock.forward bld body b x)
    ∧ (∀ (b : LazyBlock InceptionV1.BasicLayerCfg InceptionV1.BasicLayerOps) (x : Tensor),
      LazyBlock.forward InceptionV1.BasicLayer.buildOps InceptionV1.BasicLayer.call
          (LazyBlock.forward InceptionV1.BasicLayer.buildOps InceptionV1.BasicLayer.call b x).1 x =
        LazyBlock.forward InceptionV1.BasicLayer.buildOps InceptionV1.BasicLayer.call b x)
    ∧ (∀ (b : LazyBlock InceptionV2.LayerCfg InceptionV2.DeepLayerOps) (x : Tensor),
      LazyBlock.forward InceptionV2.DeepLayer.buildOps InceptionV2.DeepLayer.call
          (LazyBlock.forward InceptionV2.DeepLayer.buildOps InceptionV2.DeepLayer.call b x).1 x =
        LazyBlock.forward InceptionV2.DeepLayer.buildOps InceptionV2.DeepLayer.call b x) := by
  have gen : ∀ (Cfg Ops R : Type) (bld : Cfg → Ops) (body : Ops → Tensor → R)
      (b : LazyBlock Cfg Ops) (x : Tensor),
      LazyBlock.forward bld body (LazyBlock.forward bld body b x).1 x =
        LazyBlock.forward bld body b x := by
    intro Cfg Ops R bld body b x
    cases b with
    | mk cfg built => cases built <;> rfl
  exact ⟨gen, fun b x => gen _ _ _ _ _ b x, fun b x => gen _ _ _ _ _ b x⟩

/-- Claim C9 (counterexample): the sub-operators of a V1 basic block are
not constructed exactly once on the first forward invocation: its build
step raises at the concatenation primitive before the built flag is
latched, so a fresh layer run twice on the input of shape (1, 8, 8, 3)
runs the build step twice — re-creating the sub-operators on the second
attempt — and caches nothing. -/
theorem v1_basic_build_reruns_on_second_forward :
    (LazyBlock.iterateE InceptionV1.BasicLayer.build InceptionV1.BasicLayer.call
      ⟨InceptionV1.BasicLayer.mkLayer Act.relu, none⟩
      [Tensor.input ⟨1, 8, 8, 3⟩, Tensor.input ⟨1, 8, 8, 3⟩]).2 = 2
    ∧ (LazyBlock.iterateE InceptionV1.BasicLayer.build InceptionV1.BasicLayer.call
      ⟨InceptionV1.BasicLayer.mkLayer Act.relu, none⟩
      [Tensor.input ⟨1, 8, 8, 3⟩, Tensor.input ⟨1, 8, 8, 3⟩]).1.built = none :=
  ⟨rfl, rfl⟩

/-- Claim C9 (amended): through the build-on-first-call protocol with its
error path, the sub-operators are constructed exactly once — on the first
forward invocation, cached as exactly the operator set the constructor
state determines, and never re-created afterwards — only for `DeepLayer`,
the one class whose build step completes. For the four classes whose build
step raises at the concatenation primitive, the built flag is never
latched, so every forward attempt re-runs the build step: after any number
of attempts the build step has run that many times and no operators are
cached. -/
theorem suboperators_built_once_only_for_deep :
    (∀ (n : Nat) (act : Act) (x : Tensor) (xs : List Tensor),
      LazyBlock.iterateE InceptionV2.DeepLayer.build InceptionV2.DeepLayer.call
          ⟨InceptionV2.mkLayer n act, none⟩ (x :: xs) =
        (⟨InceptionV2.mkLayer n act,
          some (InceptionV2.DeepLayer.buildOps (InceptionV2.mkLayer n act))⟩, 1))
    ∧ (∀ (act : Act) (xs : List Tensor),
      LazyBlock.iterateE InceptionV1.BasicLayer.build InceptionV1.BasicLayer.call
          ⟨InceptionV1.BasicLayer.mkLayer act, none⟩ xs =
        (⟨InceptionV1.BasicLayer.mkLayer act, none⟩, xs.length))
    ∧ (∀ (act : Act) (xs : List Tensor),
      LazyBlock.iterateE InceptionV1.ReductionLayer.build InceptionV1.ReductionLayer.call
          ⟨InceptionV1.ReductionLayer.mkLayer act, none⟩ xs =
        (⟨InceptionV1.ReductionLayer.mkLayer act, none⟩, xs.length))
    ∧ (∀ (n : Nat) (act : Act) (xs : List Tensor),
      LazyBlock.iterateE InceptionV2.BasicLayer.build InceptionV2.BasicLayer.call
          ⟨InceptionV2.mkLayer n act, none⟩ xs =
        (⟨InceptionV2.mkLayer n act, none⟩, xs.length))
    ∧ (∀ (n : Nat) (act : Act) (xs : List Tensor),
      LazyBlock.iterateE InceptionV2.WideLayer.build InceptionV2.WideLayer.call
          ⟨InceptionV2.mkLayer n act, none⟩ xs =
        (⟨InceptionV2.mkLayer n act, none⟩, xs.length)) := by
  refine ⟨fun n act x xs => ?_,
    fun act xs => LazyBlock.iterateE_of_failing_build InceptionV1.BasicLayer.build
      InceptionV1.BasicLayer.call (InceptionV1.BasicLayer.mkLayer act)
      .typeErrorMissingInputs rfl xs,
    fun act xs => LazyBlock.iterateE_of_failing_build InceptionV1.ReductionLayer.build
      InceptionV1.ReductionLayer.call (InceptionV1.ReductionLayer.mkLayer act)
      .typeErrorMissingInputs rfl xs,
    fun n act xs => LazyBlock.iterateE_of_failing_build InceptionV2.BasicLayer.build
      InceptionV2.BasicLayer.call (InceptionV2.mkLayer n act)
      .typeErrorMissingInputs rfl xs,
    fun n act xs => LazyBlock.iterateE_of_failing_build InceptionV2.WideLayer.build
      InceptionV2.WideLayer.call (InceptionV2.mkLayer n act)
      .typeErrorMissingInputs rfl xs⟩
  simp [LazyBlock.iterateE, LazyBlock.forwardE, InceptionV2.DeepLayer.build,
    LazyBlock.iterateE_of_built]

